/-
Verification of the libwifi_system control-channel client
(src/libwifi_system/wifi.cpp) against its natural-language specification.

The C source is shallowly embedded: buffers are lists of characters (the
received messages are null-free text lines, so a C string is exactly its
character list), C ints are Lean Int, and the interactions with the
property system, the wpa control transport and the sockets are modelled by
explicit input parameters and effect records.
-/
import Mathlib

set_option autoImplicit false

namespace WifiSystem

/-! ### String constants of wifi.cpp -/

/-- Constant IFNAME of wifi.cpp line 86, the literal prefix IFNAME= . -/
def IFNAME : List Char := ['I', 'F', 'N', 'A', 'M', 'E', '=']

/-- Constant IFNAMELEN of wifi.cpp line 87: sizeof IFNAME minus one, i.e. 7. -/
def IFNAMELEN : Nat := IFNAME.length

/-- Constant WPA_EVENT_IGNORE of wifi.cpp line 88. Note the trailing space. -/
def WPA_EVENT_IGNORE : List Char :=
  ['C', 'T', 'R', 'L', '-', 'E', 'V', 'E', 'N', 'T', '-',
   'I', 'G', 'N', 'O', 'R', 'E', ' ']

/-- Constant WPA_EVENT_TERMINATING of wifi.cpp line 42. Note the trailing
space, present both in the in-file fallback and in the wpa_ctrl.h original. -/
def WPA_EVENT_TERMINATING : List Char :=
  ['C', 'T', 'R', 'L', '-', 'E', 'V', 'E', 'N', 'T', '-',
   'T', 'E', 'R', 'M', 'I', 'N', 'A', 'T', 'I', 'N', 'G', ' ']

/-- The failure marker compared by strncmp(reply, FAIL, 4) at wifi.cpp 335. -/
def FAIL : List Char := ['F', 'A', 'I', 'L']

/-- The liveness probe compared by strncmp(cmd, PING, 4) at wifi.cpp 338. -/
def PING : List Char := ['P', 'I', 'N', 'G']

/-- The literal status value running of the supplicant init property. -/
def statusRunning : List Char := ['r', 'u', 'n', 'n', 'i', 'n', 'g']

/-- The literal status value stopped of the supplicant init property. -/
def statusStopped : List Char := ['s', 't', 'o', 'p', 'p', 'e', 'd']

/-! ### strchr -/

/-- Embedding of C strchr on a null-free character list: the index of the
first occurrence of a character, none when absent.  The C call scans only
up to the null terminator, which is the end of the embedded list. -/
def strchr : List Char → Char → Option Nat
  | [], _ => none
  | a :: as, c => if a = c then some 0 else (strchr as c).map (fun k => k + 1)

/-! ### The event message normalizer -/

/-- The normalization phase of wifi_wait_on_socket (wifi.cpp lines 432-460),
as the pure transformation the spec calls normalize: it receives the
received message (the buffer content up to the null written at nread) and
returns the new buffer content together with the returned length.  The
model assumes the caller buffer is ample (large enough for the ignore
marker), which holds for the real callers.  Branches, in source order:
an IFNAME= prefixed message with a space and a well-formed verbosity tag
has the tag excised in place by memmove; an IFNAME= prefixed message
without a space is replaced by WPA_EVENT_IGNORE via snprintf, whose return
value is the length of that marker; a message whose first character is the
tag opener has the tag excised from the front; everything else passes
through unchanged. -/
def normalize (s : List Char) : List Char × Nat :=
  if s.take IFNAMELEN = IFNAME then
    match strchr s ' ' with
    | some p =>
      if (s.drop (p + 1)).head? = some '<' then
        match strchr (s.drop (p + 2)) '>' with
        | some j => (s.take (p + 1) ++ s.drop (p + 2 + j + 1), s.length - (j + 2))
        | none => (s, s.length)
      else (s, s.length)
    | none => (WPA_EVENT_IGNORE, WPA_EVENT_IGNORE.length)
  else if s.head? = some '<' then
    match strchr s '>' with
    | some q => (s.drop (q + 1), s.length - (q + 1))
    | none => (s, s.length)
  else (s, s.length)

/-- A message matches one of the content-changing branches of normalize:
an IFNAME= prefix followed by a space, the tag opener and a closed tag; an
IFNAME= prefix with no space at all; or a leading closed tag.  Mirrors the
branch conditions of wifi.cpp lines 432-451. -/
def strippable (s : List Char) : Bool :=
  if s.take IFNAMELEN = IFNAME then
    match strchr s ' ' with
    | some p =>
      decide ((s.drop (p + 1)).head? = some '<') && (strchr (s.drop (p + 2)) '>').isSome
    | none => true
  else if s.head? = some '<' then (strchr s '>').isSome
  else false

/-! ### The event wait -/

/-- The reason suffix of the disconnect and cancellation synthetic events. -/
def reasonConnectionClosed : List Char :=
  ['c', 'o', 'n', 'n', 'e', 'c', 't', 'i', 'o', 'n', ' ',
   'c', 'l', 'o', 's', 'e', 'd']

/-- The reason suffix of the receive-error synthetic event. -/
def reasonRecvError : List Char :=
  ['r', 'e', 'c', 'v', ' ', 'e', 'r', 'r', 'o', 'r']

/-- The reason suffix of the zero-byte EOF synthetic event. -/
def reasonSignalZero : List Char :=
  ['s', 'i', 'g', 'n', 'a', 'l', ' ', '0', ' ',
   'r', 'e', 'c', 'e', 'i', 'v', 'e', 'd']

/-- The synthetic terminal event built by the snprintf calls of
wifi_wait_on_socket: format IFNAME=%s %s - reason, with the interface and
WPA_EVENT_TERMINATING substituted.  The marker carries its own trailing
space, so two spaces precede the dash. -/
def synthEvent (iface reason : List Char) : List Char :=
  IFNAME ++ iface ++ ' ' :: (WPA_EVENT_TERMINATING ++ (' ' :: '-' :: ' ' :: reason))

/-- Embedding of wifi_wait_on_socket (wifi.cpp lines 388-461).  Inputs:
whether monitor_conn is non-null, the recorded primary interface name, the
int result of wifi_ctrl_recv and the received bytes (whose count is nread).
Output: the final buffer content and the returned int.  The snprintf calls
return the length of the formatted string (ample caller buffer). -/
def wifi_wait_on_socket (connected : Bool) (iface : List Char)
    (res : Int) (msg : List Char) : List Char × Int :=
  if connected = false then
    (synthEvent iface reasonConnectionClosed,
     ((synthEvent iface reasonConnectionClosed).length : Int))
  else if res = -2 then
    (synthEvent iface reasonConnectionClosed,
     ((synthEvent iface reasonConnectionClosed).length : Int))
  else if res < 0 then
    (synthEvent iface reasonRecvError,
     ((synthEvent iface reasonRecvError).length : Int))
  else if res = 0 ∧ msg.length = 0 then
    (synthEvent iface reasonSignalZero,
     ((synthEvent iface reasonSignalZero).length : Int))
  else ((normalize msg).1, ((normalize msg).2 : Int))

/-! ### wifi_ctrl_recv -/

/-- The channel resources held by the file-scope globals of wifi.cpp:
the two wpa_ctrl handles, whether the signaling pair exists, and the bytes
queued on the read end of the pair, exit_sockets index 1. -/
structure ChannelState where
  ctrl_conn : Bool
  monitor_conn : Bool
  exitSockets : Bool
  cancelPending : List Char
deriving DecidableEq

/-- Embedding of the readiness dispatch of wifi_ctrl_recv (wifi.cpp lines
354-386) for one poll call that reported readiness: eventReady and
cancelReady say which descriptors poll marked readable, and recvRet with
recvMsg model the wpa_ctrl_recv transport call.  The code reads only the
monitor socket; no branch reads from the exit socket or closes anything,
so the channel state is returned unchanged on every path.  When the event
descriptor is not ready the function returns -2 without touching the
state; the cancelReady flag is never examined beyond having woken poll. -/
def wifi_ctrl_recv (eventReady _cancelReady : Bool) (recvRet : Int)
    (recvMsg : List Char) (st : ChannelState) :
    (Int × List Char) × ChannelState :=
  if eventReady then ((recvRet, recvMsg), st)
  else ((-2, []), st)

/-! ### wifi_send_command -/

/-- The observable outcome of one wifi_send_command call: the returned
int, whether wpa_ctrl_request was invoked, how many cancellation bytes
were written to exit_sockets index 0, and the index of the terminator
written into the reply buffer, when one is written. -/
structure SendResult where
  ret : Int
  contactedTransport : Bool
  cancelBytesWritten : Nat
  termWriteIdx : Option Nat
deriving DecidableEq

/-- Embedding of wifi_send_command (wifi.cpp lines 323-342).  Inputs:
whether ctrl_conn is non-null, the command text, the reply buffer content
after the transport call, the used reply length, and the int returned by
wpa_ctrl_request. -/
def wifi_send_command (connected : Bool) (cmd reply : List Char)
    (reply_len : Nat) (ret : Int) : SendResult :=
  if connected = false then ⟨-1, false, 0, none⟩
  else if ret = -2 then ⟨-2, true, 1, none⟩
  else if ret < 0 ∨ reply.take 4 = FAIL then ⟨-1, true, 0, none⟩
  else if cmd.take 4 = PING then ⟨0, true, 0, some reply_len⟩
  else ⟨0, true, 0, none⟩

/-- Writing one character at an index of a fixed-capacity buffer: succeeds
exactly when the index is within the capacity. -/
def writeAt (buf : List Char) (i : Nat) (c : Char) : Option (List Char) :=
  if i < buf.length then some (buf.set i c) else none

/-! ### wifi_connect_on_socket_path -/

/-- The resource-affecting steps of wifi_connect_on_socket_path, recorded
in execution order.  Opens are recorded only when they succeed. -/
inductive ConnAction where
  | openCtrlConn
  | openMonitorConn
  | attachMonitor
  | mkSockPair
  | closeCtrlConn
  | closeMonitorConn
deriving DecidableEq

/-- The outcome of one wifi_connect_on_socket_path call: the returned int,
the final values of the ctrl_conn and monitor_conn globals (non-null or
null), whether the signaling pair exists, and the action log. -/
structure ConnResult where
  ret : Int
  ctrl_conn : Bool
  monitor_conn : Bool
  pairCreated : Bool
  log : List ConnAction
deriving DecidableEq

/-- Embedding of wifi_connect_on_socket_path (wifi.cpp lines 284-321).
Inputs: whether the supplicant property reads running, and the success of
the two wpa_ctrl_open calls, the wpa_ctrl_attach call and the socketpair
call.  Each failure branch closes, in source order, monitor then ctrl of
whatever was opened, nulls both globals and returns -1; the pair is
created last, only after both opens and the attach succeeded. -/
def wifi_connect_on_socket_path
    (running openCtrlOk openMonOk attachOk pairOk : Bool) : ConnResult :=
  if running = false then ⟨-1, false, false, false, []⟩
  else if openCtrlOk = false then ⟨-1, false, false, false, []⟩
  else if openMonOk = false then
    ⟨-1, false, false, false, [.openCtrlConn, .closeCtrlConn]⟩
  else if attachOk = false then
    ⟨-1, false, false, false,
     [.openCtrlConn, .openMonitorConn, .closeMonitorConn, .closeCtrlConn]⟩
  else if pairOk = false then
    ⟨-1, false, false, false,
     [.openCtrlConn, .openMonitorConn, .attachMonitor,
      .closeMonitorConn, .closeCtrlConn]⟩
  else ⟨0, true, true, true,
        [.openCtrlConn, .openMonitorConn, .attachMonitor, .mkSockPair]⟩

/-- The successful resource acquisitions recorded in a connect log. -/
def opensOf (l : List ConnAction) : List ConnAction :=
  l.filter fun a =>
    match a with
    | .openCtrlConn => true
    | .openMonitorConn => true
    | .mkSockPair => true
    | _ => false

/-- The acquisition released by a close action, if it is a close. -/
def openedBy : ConnAction → Option ConnAction
  | .closeCtrlConn => some .openCtrlConn
  | .closeMonitorConn => some .openMonitorConn
  | _ => none

/-- The resource releases recorded in a connect log, each named by the
acquisition it undoes, in execution order. -/
def closesOf (l : List ConnAction) : List ConnAction :=
  l.filterMap openedBy

/-! ### wifi_start_supplicant -/

/-- The environment one wifi_start_supplicant call observes: the initial
property_get of the supplicant init property (whether it returned nonzero
and the value), whether ensure_config_file_exists on the primary config
succeeded, whether the initial __system_property_find found the property
and the serial it then carried, and per-poll-iteration observations of
find, serial and status. -/
structure StartEnv where
  found0 : Bool
  status0 : List Char
  configOk : Bool
  findInit : Bool
  serialInit : Nat
  findAt : Nat → Bool
  serialAt : Nat → Nat
  statusAt : Nat → List Char

/-- The poll ceiling of wifi_start_supplicant: count starts at 200,
one iteration per 100000 microsecond usleep, 20 seconds in all. -/
def startPollCount : Nat := 200

/-- The polling loop of wifi_start_supplicant (wifi.cpp lines 236-255),
indexed by the remaining count, the current iteration number and whether
the property handle has been found so far.  One iteration refreshes the
handle when still missing, and when the handle exists and its serial
differs from the recorded one reads the status: running returns 0,
stopped returns -1, anything else keeps polling.  Exhausting the count
returns -1. -/
def pollLoop (env : StartEnv) (serial : Nat) : Nat → Nat → Bool → Int
  | 0, _, _ => -1
  | c + 1, t, pf =>
    if (pf || env.findAt t) = true ∧ env.serialAt t ≠ serial then
      if env.statusAt t = statusRunning then 0
      else if env.statusAt t = statusStopped then -1
      else pollLoop env serial c (t + 1) (pf || env.findAt t)
    else pollLoop env serial c (t + 1) (pf || env.findAt t)

/-- Embedding of wifi_start_supplicant (wifi.cpp lines 183-257).  Output:
the returned int, paired with whether the ctl.start property_set was
issued.  When the initial property read says running it returns 0 at
once with no start issued; when the primary config file cannot be ensured
it returns -1 with no start issued; otherwise it records the serial (0
when the property handle was not found), issues start and polls. -/
def wifi_start_supplicant (env : StartEnv) : Int × Bool :=
  if env.found0 = true ∧ env.status0 = statusRunning then (0, false)
  else if env.configOk = false then (-1, false)
  else
    (pollLoop env (if env.findInit = true then env.serialInit else 0)
      startPollCount 0 env.findInit, true)

/-- The property handle is visible at poll iteration t: it was found
before the loop, or some refresh at an iteration up to t found it. -/
def piVisible (env : StartEnv) (t : Nat) : Prop :=
  env.findInit = true ∨ ∃ s, s ≤ t ∧ env.findAt s = true

/-- The property handle became visible strictly before iteration t. -/
def visBefore (env : StartEnv) (t : Nat) : Prop :=
  env.findInit = true ∨ ∃ s, s < t ∧ env.findAt s = true

/-- Poll iteration t is a terminal observation: the handle is visible,
its serial has advanced past the recorded one, and the status read is
running or stopped. -/
def terminalAt (env : StartEnv) (serial t : Nat) : Prop :=
  piVisible env t ∧ env.serialAt t ≠ serial ∧
    (env.statusAt t = statusRunning ∨ env.statusAt t = statusStopped)

/-- A concrete start environment: not initially running, config ensured,
handle found with serial 0, and every poll sees serial 1 and running. -/
def startEnvW : StartEnv :=
  ⟨false, [], true, true, 0, fun _ => false, fun _ => 1, fun _ => statusRunning⟩

/-! ### Lemmas about strchr, take and drop -/

theorem strchr_cons_self (c : Char) (as : List Char) :
    strchr (c :: as) c = some 0 := by
  simp [strchr]

theorem strchr_cons_ne (a c : Char) (as : List Char) (h : a ≠ c) :
    strchr (a :: as) c = (strchr as c).map (fun k => k + 1) := by
  simp [strchr, h]

theorem strchr_eq_none_iff (s : List Char) (c : Char) :
    strchr s c = none ↔ c ∉ s := by
  induction s with
  | nil => simp [strchr]
  | cons a as ih =>
    by_cases h : a = c
    · subst h; simp [strchr]
    · simp [strchr, h, ih, Ne.symm h]

/-- A successful strchr scan never leaves the string: the returned index is
strictly below the length of the scanned (null-terminated) message. -/
theorem strchr_some_lt (s : List Char) (c : Char) (k : Nat)
    (h : strchr s c = some k) : k < s.length := by
  induction s generalizing k with
  | nil => simp [strchr] at h
  | cons a as ih =>
    by_cases ha : a = c
    · subst ha; rw [strchr_cons_self] at h
      cases h; simp
    · rw [strchr_cons_ne a c as ha] at h
      cases hk : strchr as c with
      | none => rw [hk] at h; simp at h
      | some j =>
        rw [hk] at h
        simp at h
        subst h
        have := ih j hk
        simp
        exact this

theorem strchr_append_of_not_mem (xs ys : List Char) (c : Char)
    (h : c ∉ xs) :
    strchr (xs ++ ys) c = (strchr ys c).map (fun k => k + xs.length) := by
  induction xs with
  | nil => simp
  | cons a as ih =>
    have ha : a ≠ c := fun hac => h (by simp [hac])
    have has : c ∉ as := fun hmem => h (by simp [hmem])
    rw [List.cons_append, strchr_cons_ne a c (as ++ ys) ha, ih has]
    cases strchr ys c with
    | none => simp
    | some k => simp [Nat.add_assoc, Nat.add_comm 1 as.length]

theorem take_len_append (xs ys : List Char) :
    (xs ++ ys).take xs.length = xs := by
  induction xs with
  | nil => simp
  | cons a as ih => simp [ih]

theorem drop_len_add_append (xs ys : List Char) (k : Nat) :
    (xs ++ ys).drop (xs.length + k) = ys.drop k := by
  induction xs with
  | nil => simp
  | cons a as ih => simp [Nat.succ_add, ih]

theorem drop_len_append (xs ys : List Char) :
    (xs ++ ys).drop xs.length = ys := by
  simp

/-! ### Branch equations of the normalizer -/

theorem normalize_tag_branch (s : List Char) (p j : Nat)
    (h1 : s.take IFNAMELEN = IFNAME) (h2 : strchr s ' ' = some p)
    (h3 : (s.drop (p + 1)).head? = some '<')
    (h4 : strchr (s.drop (p + 2)) '>' = some j) :
    normalize s = (s.take (p + 1) ++ s.drop (p + 2 + j + 1), s.length - (j + 2)) := by
  rw [normalize, if_pos h1, h2]
  simp only [h3, h4, if_pos]

theorem normalize_tag_none_branch (s : List Char) (p : Nat)
    (h1 : s.take IFNAMELEN = IFNAME) (h2 : strchr s ' ' = some p)
    (h3 : (s.drop (p + 1)).head? = some '<')
    (h4 : strchr (s.drop (p + 2)) '>' = none) :
    normalize s = (s, s.length) := by
  rw [normalize, if_pos h1, h2]
  simp only [h3, h4, if_pos]

theorem normalize_no_opener_branch (s : List Char) (p : Nat)
    (h1 : s.take IFNAMELEN = IFNAME) (h2 : strchr s ' ' = some p)
    (h3 : ¬ (s.drop (p + 1)).head? = some '<') :
    normalize s = (s, s.length) := by
  rw [normalize, if_pos h1, h2]
  simp only [if_neg h3]

theorem normalize_ignore_branch (s : List Char)
    (h1 : s.take IFNAMELEN = IFNAME) (h2 : strchr s ' ' = none) :
    normalize s = (WPA_EVENT_IGNORE, WPA_EVENT_IGNORE.length) := by
  rw [normalize, if_pos h1, h2]

theorem normalize_bare_tag_branch (s : List Char) (q : Nat)
    (h1 : ¬ s.take IFNAMELEN = IFNAME) (h2 : s.head? = some '<')
    (h3 : strchr s '>' = some q) :
    normalize s = (s.drop (q + 1), s.length - (q + 1)) := by
  rw [normalize, if_neg h1, if_pos h2, h3]

theorem normalize_bare_tag_none_branch (s : List Char)
    (h1 : ¬ s.take IFNAMELEN = IFNAME) (h2 : s.head? = some '<')
    (h3 : strchr s '>' = none) :
    normalize s = (s, s.length) := by
  rw [normalize, if_neg h1, if_pos h2, h3]

theorem normalize_passthrough_branch (s : List Char)
    (h1 : ¬ s.take IFNAMELEN = IFNAME) (h2 : ¬ s.head? = some '<') :
    normalize s = (s, s.length) := by
  rw [normalize, if_neg h1, if_neg h2]

/-! ### Normalizer branch facts shared between claims -/

theorem space_not_mem_ifname_iface (i : List Char) (hi : ' ' ∉ i) :
    ' ' ∉ IFNAME ++ i := by
  intro hmem
  rcases List.mem_append.mp hmem with h | h
  · simp [IFNAME] at h
  · exact hi h

theorem take_ifnamelen_of_ifname_prefixed (t : List Char) :
    (IFNAME ++ t).take IFNAMELEN = IFNAME :=
  take_len_append IFNAME t

theorem take_ifnamelen_cons_lt (t : List Char) :
    ('<' :: t).take IFNAMELEN ≠ IFNAME := by
  intro h
  have h1 : ('<' :: t).take IFNAMELEN = '<' :: t.take 6 := rfl
  have h2 : IFNAME = 'I' :: ['F', 'N', 'A', 'M', 'E', '='] := rfl
  rw [h1, h2] at h
  injection h with h3 _
  exact absurd h3 (by decide)

theorem strchr_space_ifname_shape (i t : List Char) (hi : ' ' ∉ i) :
    strchr ((IFNAME ++ i) ++ ' ' :: t) ' ' = some (IFNAME ++ i).length := by
  rw [strchr_append_of_not_mem _ _ _ (space_not_mem_ifname_iface i hi),
    strchr_cons_self]
  simp

/-- C1: for a raw event IFNAME=iface space tag rest with a well-formed
verbosity tag, the normalization phase of wifi_wait_on_socket rewrites the
buffer to exactly IFNAME=iface space rest and returns the input length
reduced by the width of the tag; and for a raw event that is a well-formed
tag followed by rest, with no IFNAME prefix, it rewrites the buffer to
exactly rest and returns the correspondingly reduced length. -/
theorem normalize_strips_verbosity_tag (i n rest : List Char)
    (hi : ' ' ∉ i) (hn : '>' ∉ n) :
    normalize (IFNAME ++ i ++ ' ' :: '<' :: (n ++ '>' :: rest))
        = (IFNAME ++ i ++ ' ' :: rest,
          (IFNAME ++ i ++ ' ' :: '<' :: (n ++ '>' :: rest)).length - (n.length + 2))
    ∧ normalize ('<' :: (n ++ '>' :: rest))
        = (rest, ('<' :: (n ++ '>' :: rest)).length - (n.length + 2)) := by
  constructor
  · have htake : ((IFNAME ++ i) ++ ' ' :: '<' :: (n ++ '>' :: rest)).take IFNAMELEN
        = IFNAME := by
      rw [List.append_assoc]
      exact take_ifnamelen_of_ifname_prefixed _
    have hspace := strchr_space_ifname_shape i ('<' :: (n ++ '>' :: rest)) hi
    have hdrop1 : ((IFNAME ++ i) ++ ' ' :: '<' :: (n ++ '>' :: rest)).drop
        ((IFNAME ++ i).length + 1) = '<' :: (n ++ '>' :: rest) := by
      rw [drop_len_add_append]
      rfl
    have hhead : (((IFNAME ++ i) ++ ' ' :: '<' :: (n ++ '>' :: rest)).drop
        ((IFNAME ++ i).length + 1)).head? = some '<' := by
      rw [hdrop1]
      rfl
    have hdrop2 : ((IFNAME ++ i) ++ ' ' :: '<' :: (n ++ '>' :: rest)).drop
        ((IFNAME ++ i).length + 2) = n ++ '>' :: rest := by
      rw [drop_len_add_append]
      rfl
    have hgt : strchr (((IFNAME ++ i) ++ ' ' :: '<' :: (n ++ '>' :: rest)).drop
        ((IFNAME ++ i).length + 2)) '>' = some n.length := by
      rw [hdrop2, strchr_append_of_not_mem _ _ _ hn, strchr_cons_self]
      simp
    have htk1 : ((IFNAME ++ i) ++ ' ' :: '<' :: (n ++ '>' :: rest)).take
        ((IFNAME ++ i).length + 1) = (IFNAME ++ i) ++ [' '] := by
      have h1 : (IFNAME ++ i) ++ ' ' :: '<' :: (n ++ '>' :: rest)
          = ((IFNAME ++ i) ++ [' ']) ++ '<' :: (n ++ '>' :: rest) := by simp
      have h2 : (IFNAME ++ i).length + 1 = ((IFNAME ++ i) ++ [' ']).length := by
        simp
        omega
      rw [h1, h2]
      exact take_len_append _ _
    have hdrop3 : ((IFNAME ++ i) ++ ' ' :: '<' :: (n ++ '>' :: rest)).drop
        ((IFNAME ++ i).length + 2 + n.length + 1) = rest := by
      have h1 : (n ++ '>' :: rest).drop (n.length + 1) = rest := by
        rw [drop_len_add_append]
        rfl
      have h2 : ((IFNAME ++ i) ++ ' ' :: '<' :: (n ++ '>' :: rest)).drop
          ((IFNAME ++ i).length + 2 + n.length + 1)
          = (((IFNAME ++ i) ++ ' ' :: '<' :: (n ++ '>' :: rest)).drop
              ((IFNAME ++ i).length + 2)).drop (n.length + 1) := by
        rw [List.drop_drop]
        congr 1
      rw [h2, hdrop2, h1]
    rw [normalize_tag_branch _ ((IFNAME ++ i).length) n.length htake hspace hhead hgt,
      htk1, hdrop3]
    simp
  · have hgt2 : strchr ('<' :: (n ++ '>' :: rest)) '>' = some (n.length + 1) := by
      rw [strchr_cons_ne '<' '>' _ (by decide),
        strchr_append_of_not_mem _ _ _ hn, strchr_cons_self]
      simp
    have hdrop4 : ('<' :: (n ++ '>' :: rest)).drop (n.length + 1 + 1) = rest := by
      rw [List.drop_succ_cons, drop_len_add_append]
      rfl
    rw [normalize_bare_tag_branch _ (n.length + 1) (take_ifnamelen_cons_lt _) rfl hgt2,
      hdrop4]

/-- C2: a raw message with a verbosity-tag opener but no closing bracket in
the remainder of the buffer, in either the IFNAME-prefixed shape or the
bare shape, is left unchanged by normalization, with an unchanged returned
length; and every strchr scan stays within the null-terminated message:
a found index is always below the message length. -/
theorem normalize_missing_closer_identity (i tail tail2 : List Char)
    (hi : ' ' ∉ i) (h1 : '>' ∉ tail) (h2 : '>' ∉ tail2) :
    normalize (IFNAME ++ i ++ ' ' :: '<' :: tail)
        = (IFNAME ++ i ++ ' ' :: '<' :: tail,
           (IFNAME ++ i ++ ' ' :: '<' :: tail).length)
    ∧ normalize ('<' :: tail2) = ('<' :: tail2, ('<' :: tail2).length)
    ∧ (∀ (s : List Char) (c : Char) (k : Nat),
        strchr s c = some k → k < s.length) := by
  refine ⟨?_, ?_, strchr_some_lt⟩
  · have htake : ((IFNAME ++ i) ++ ' ' :: '<' :: tail).take IFNAMELEN
        = IFNAME := by
      rw [List.append_assoc]
      exact take_ifnamelen_of_ifname_prefixed _
    have hspace := strchr_space_ifname_shape i ('<' :: tail) hi
    have hdrop1 : ((IFNAME ++ i) ++ ' ' :: '<' :: tail).drop
        ((IFNAME ++ i).length + 1) = '<' :: tail := by
      rw [drop_len_add_append]
      rfl
    have hhead : (((IFNAME ++ i) ++ ' ' :: '<' :: tail).drop
        ((IFNAME ++ i).length + 1)).head? = some '<' := by
      rw [hdrop1]
      rfl
    have hdrop2 : ((IFNAME ++ i) ++ ' ' :: '<' :: tail).drop
        ((IFNAME ++ i).length + 2) = tail := by
      rw [drop_len_add_append]
      rfl
    have hnone : strchr (((IFNAME ++ i) ++ ' ' :: '<' :: tail).drop
        ((IFNAME ++ i).length + 2)) '>' = none := by
      rw [hdrop2]
      exact (strchr_eq_none_iff tail '>').mpr h1
    exact normalize_tag_none_branch _ _ htake hspace hhead hnone
  · have hnone2 : strchr ('<' :: tail2) '>' = none := by
      rw [strchr_cons_ne '<' '>' _ (by decide),
        (strchr_eq_none_iff tail2 '>').mpr h2]
      rfl
    exact normalize_bare_tag_none_branch _ (take_ifnamelen_cons_lt _) rfl hnone2

/-- C1 witness at the spec example message IFNAME=wlan0 tag X. -/
theorem normalize_strips_verbosity_tag_witness :
    normalize (IFNAME ++ ['w', 'l', 'a', 'n', '0'] ++ ' ' :: '<' :: (['3'] ++ '>' :: ['X']))
        = (IFNAME ++ ['w', 'l', 'a', 'n', '0'] ++ ' ' :: ['X'],
          (IFNAME ++ ['w', 'l', 'a', 'n', '0'] ++ ' ' :: '<' :: (['3'] ++ '>' :: ['X'])).length
            - ((['3'] : List Char).length + 2))
    ∧ normalize ('<' :: (['3'] ++ '>' :: ['X']))
        = (['X'], ('<' :: (['3'] ++ '>' :: ['X'])).length - ((['3'] : List Char).length + 2)) :=
  normalize_strips_verbosity_tag ['w', 'l', 'a', 'n', '0'] ['3'] ['X']
    (by decide) (by decide)

/-- C2 witness at a concrete unterminated-tag message. -/
theorem normalize_missing_closer_identity_witness :
    normalize (IFNAME ++ ['w'] ++ ' ' :: '<' :: ['3', 'x'])
        = (IFNAME ++ ['w'] ++ ' ' :: '<' :: ['3', 'x'],
           (IFNAME ++ ['w'] ++ ' ' :: '<' :: ['3', 'x']).length) :=
  (normalize_missing_closer_identity ['w'] ['3', 'x'] ['2', 'y']
    (by decide) (by decide) (by decide)).1

/-- The returned length of the normalization phase always equals the length
of the resulting buffer content. -/
theorem normalize_snd_eq_length (s : List Char) :
    (normalize s).2 = (normalize s).1.length := by
  by_cases h1 : s.take IFNAMELEN = IFNAME
  · cases hsp : strchr s ' ' with
    | none => rw [normalize_ignore_branch s h1 hsp]
    | some p =>
      by_cases hh : (s.drop (p + 1)).head? = some '<'
      · cases hg : strchr (s.drop (p + 2)) '>' with
        | none => rw [normalize_tag_none_branch s p h1 hsp hh hg]
        | some j =>
          rw [normalize_tag_branch s p j h1 hsp hh hg]
          have hp1 : p + 1 < s.length := by
            by_contra hc
            push_neg at hc
            have hnil : s.drop (p + 1) = [] := List.drop_eq_nil_of_le hc
            rw [hnil] at hh
            simp at hh
          have hj : j < (s.drop (p + 2)).length := strchr_some_lt _ _ _ hg
          rw [List.length_drop] at hj
          simp only [List.length_append, List.length_take, List.length_drop]
          omega
      · rw [normalize_no_opener_branch s p h1 hsp hh]
  · by_cases hh : s.head? = some '<'
    · cases hg : strchr s '>' with
      | none => rw [normalize_bare_tag_none_branch s h1 hh hg]
      | some q =>
        rw [normalize_bare_tag_branch s q h1 hh hg]
        rw [List.length_drop]
    · rw [normalize_passthrough_branch s h1 hh]

/-- On a message matching none of the content-changing branch conditions,
the normalization phase is the identity. -/
theorem normalize_of_not_strippable (s : List Char)
    (h : strippable s = false) : normalize s = (s, s.length) := by
  by_cases h1 : s.take IFNAMELEN = IFNAME
  · cases hsp : strchr s ' ' with
    | none =>
      exfalso
      rw [strippable, if_pos h1, hsp] at h
      simp at h
    | some p =>
      by_cases hh : (s.drop (p + 1)).head? = some '<'
      · cases hg : strchr (s.drop (p + 2)) '>' with
        | none => exact normalize_tag_none_branch s p h1 hsp hh hg
        | some j =>
          exfalso
          rw [strippable, if_pos h1, hsp] at h
          simp [hh, hg] at h
      · exact normalize_no_opener_branch s p h1 hsp hh
  · by_cases hh : s.head? = some '<'
    · cases hg : strchr s '>' with
      | none => exact normalize_bare_tag_none_branch s h1 hh hg
      | some q =>
        exfalso
        rw [strippable, if_neg h1, if_pos hh, hg] at h
        simp at h
    · exact normalize_passthrough_branch s h1 hh

/-- C7 amended: the normalization phase is idempotent on every input whose
single-pass output no longer matches a strippable form; one pass strips at
most one verbosity tag, so an output that again presents a tag shrinks
further on a second pass. -/
theorem normalize_idempotent_of_settled (s : List Char)
    (h : strippable (normalize s).1 = false) :
    normalize ((normalize s).1) = normalize s := by
  rw [normalize_of_not_strippable _ h, ← normalize_snd_eq_length]

/-- C7 counterexample: on the raw input of two adjacent bare tags before x,
one pass of the normalization phase leaves a second strippable tag, and a
second pass strips it, so normalization is not idempotent as claimed. -/
theorem normalize_not_idempotent_cex :
    normalize ((normalize ['<', '1', '>', '<', '2', '>', 'x']).1)
      ≠ normalize ['<', '1', '>', '<', '2', '>', 'x'] := by decide

/-- C7 witness: a single-tag message is settled after one pass. -/
theorem normalize_idempotent_of_settled_witness :
    normalize ((normalize ['I', 'F', 'N', 'A', 'M', 'E', '=', 'w', ' ', '<', '3', '>', 'x']).1)
      = normalize ['I', 'F', 'N', 'A', 'M', 'E', '=', 'w', ' ', '<', '3', '>', 'x'] :=
  normalize_idempotent_of_settled _ (by decide)

/-- C8 amended: the length returned by the normalization phase is at most
the input length on every branch except the ignore-marker branch; on that
branch, an IFNAME= prefixed message with no space, the result is the fixed
ignore marker and its length, which can exceed a shorter input. -/
theorem normalize_shrinks_except_ignore (s : List Char) :
    (s.take IFNAMELEN = IFNAME → strchr s ' ' = none →
      normalize s = (WPA_EVENT_IGNORE, WPA_EVENT_IGNORE.length))
    ∧ (¬ (s.take IFNAMELEN = IFNAME ∧ strchr s ' ' = none) →
      (normalize s).2 ≤ s.length) := by
  constructor
  · intro h1 h2
    exact normalize_ignore_branch s h1 h2
  · intro h
    by_cases h1 : s.take IFNAMELEN = IFNAME
    · cases hsp : strchr s ' ' with
      | none => exact absurd ⟨h1, hsp⟩ h
      | some p =>
        by_cases hh : (s.drop (p + 1)).head? = some '<'
        · cases hg : strchr (s.drop (p + 2)) '>' with
          | none =>
            rw [normalize_tag_none_branch s p h1 hsp hh hg]
          | some j =>
            rw [normalize_tag_branch s p j h1 hsp hh hg]
            exact Nat.sub_le _ _
        · rw [normalize_no_opener_branch s p h1 hsp hh]
    · by_cases hh : s.head? = some '<'
      · cases hg : strchr s '>' with
        | none => rw [normalize_bare_tag_none_branch s h1 hh hg]
        | some q =>
          rw [normalize_bare_tag_branch s q h1 hh hg]
          exact Nat.sub_le _ _
      · rw [normalize_passthrough_branch s h1 hh]

/-- C8 counterexample: the message IFNAME= alone, of length 7, is replaced
by the 18 character ignore marker and the returned length 18 exceeds the
input length, so normalization is not shrinking only. -/
theorem normalize_can_lengthen_cex :
    ¬ ((normalize IFNAME).2 ≤ IFNAME.length) := by decide

/-- C8 witness: a tag-stripping input shrinks, and the ignore branch
applies at a concrete spaceless IFNAME= message. -/
theorem normalize_shrinks_except_ignore_witness :
    normalize ['I', 'F', 'N', 'A', 'M', 'E', '=', 'x']
        = (WPA_EVENT_IGNORE, WPA_EVENT_IGNORE.length)
    ∧ (normalize ['<', '2', '>', 'x']).2 ≤ (['<', '2', '>', 'x'] : List Char).length :=
  ⟨(normalize_shrinks_except_ignore ['I', 'F', 'N', 'A', 'M', 'E', '=', 'x']).1
      (by decide) (by decide),
   (normalize_shrinks_except_ignore ['<', '2', '>', 'x']).2 (by decide)⟩

/-! ### Synthetic terminal events -/

/-- C6 amended: every synthetic terminal event of wifi_wait_on_socket, in
the not-connected, cancellation, receive-error and zero-byte-EOF cases, is
exactly IFNAME= followed by the interface, a space, WPA_EVENT_TERMINATING
(which itself ends in a space), then space dash space and the reason, the
reason being one of connection closed, recv error and signal 0 received;
since the marker carries a trailing space, two spaces precede the dash, so
disconnect followed by a wait with interface wlan0 yields exactly the
string IFNAME=wlan0 CTRL-EVENT-TERMINATING followed by two spaces, a dash,
a space and connection closed. -/
theorem wait_on_socket_synthetic_events (iface msg : List Char) (res : Int) :
    wifi_wait_on_socket false iface res msg
        = (synthEvent iface reasonConnectionClosed,
          ((synthEvent iface reasonConnectionClosed).length : Int))
    ∧ (res = -2 → wifi_wait_on_socket true iface res msg
        = (synthEvent iface reasonConnectionClosed,
          ((synthEvent iface reasonConnectionClosed).length : Int)))
    ∧ (res < 0 → res ≠ -2 → wifi_wait_on_socket true iface res msg
        = (synthEvent iface reasonRecvError,
          ((synthEvent iface reasonRecvError).length : Int)))
    ∧ wifi_wait_on_socket true iface 0 []
        = (synthEvent iface reasonSignalZero,
          ((synthEvent iface reasonSignalZero).length : Int))
    ∧ synthEvent iface reasonConnectionClosed
        = IFNAME ++ iface ++ ' ' ::
            (WPA_EVENT_TERMINATING ++ (' ' :: '-' :: ' ' :: reasonConnectionClosed))
    ∧ wifi_wait_on_socket false ['w', 'l', 'a', 'n', '0'] 0 []
        = ("IFNAME=wlan0 CTRL-EVENT-TERMINATING  - connection closed".toList, 56) := by
  refine ⟨rfl, ?_, ?_, ?_, rfl, by decide⟩
  · intro h
    rw [wifi_wait_on_socket, if_neg (by decide), if_pos h]
  · intro h1 h2
    rw [wifi_wait_on_socket, if_neg (by decide), if_neg h2, if_pos h1]
  · rfl

/-- C6 counterexample: the disconnect-then-wait synthetic event is not the
single-space string the claim names; the trailing space of the marker makes
two spaces precede the dash. -/
theorem wait_on_socket_single_space_cex :
    (wifi_wait_on_socket false ['w', 'l', 'a', 'n', '0'] 0 []).1
      ≠ "IFNAME=wlan0 CTRL-EVENT-TERMINATING - connection closed".toList := by
  decide

/-- C6 witness at the cancellation branch with interface wlan0. -/
theorem wait_on_socket_synthetic_events_witness :
    wifi_wait_on_socket true ['w', 'l', 'a', 'n', '0'] (-2) []
        = (synthEvent ['w', 'l', 'a', 'n', '0'] reasonConnectionClosed,
          ((synthEvent ['w', 'l', 'a', 'n', '0'] reasonConnectionClosed).length : Int)) :=
  (wait_on_socket_synthetic_events ['w', 'l', 'a', 'n', '0'] [] (-2)).2.1 rfl

/-! ### The cancellation branch of wifi_ctrl_recv -/

/-- C9 amended: when poll reports the cancellation descriptor ready and
the event descriptor not ready, wifi_ctrl_recv returns -2 and the channel
state is completely untouched: in particular the pending cancellation byte
is left unread on the signaling pair rather than consumed, and no handle
or socket is torn down; wifi_wait_on_socket then turns the -2 into the
synthetic connection closed terminal event. -/
theorem ctrl_recv_cancel_branch (recvRet : Int) (recvMsg iface : List Char)
    (st : ChannelState) :
    wifi_ctrl_recv false true recvRet recvMsg st = ((-2, []), st)
    ∧ (wifi_ctrl_recv false true recvRet recvMsg st).2.cancelPending
        = st.cancelPending
    ∧ (wifi_ctrl_recv false true recvRet recvMsg st).2.ctrl_conn = st.ctrl_conn
    ∧ (wifi_ctrl_recv false true recvRet recvMsg st).2.monitor_conn
        = st.monitor_conn
    ∧ (wifi_ctrl_recv false true recvRet recvMsg st).2.exitSockets
        = st.exitSockets
    ∧ wifi_wait_on_socket true iface (-2) []
        = (synthEvent iface reasonConnectionClosed,
          ((synthEvent iface reasonConnectionClosed).length : Int)) := by
  refine ⟨rfl, rfl, rfl, rfl, rfl, ?_⟩
  rw [wifi_wait_on_socket, if_neg (by decide), if_pos rfl]

/-- C9 counterexample: with one cancellation byte pending, the cancellation
branch leaves that byte on the signaling pair, so the signal is not
consumed as the claim states. -/
theorem ctrl_recv_cancel_not_consumed_cex :
    (wifi_ctrl_recv false true 0 [] ⟨true, true, true, ['T']⟩).2.cancelPending
        = ['T']
    ∧ (wifi_ctrl_recv false true 0 [] ⟨true, true, true, ['T']⟩).2.cancelPending
        ≠ [] := by decide

/-! ### wifi_send_command claims -/

/-- C4: wifi_send_command fails immediately with -1 and never contacts the
transport when the command connection is absent; on a transport timeout it
writes exactly one cancellation byte to the signaling pair and fails with
-2; on a transport error or a reply beginning with the 4-byte FAIL marker
it fails with -1 writing nothing; in every other case it returns 0, and
when the command begins with PING it additionally writes the terminator
into the reply at the used length. -/
theorem send_command_classification (connected : Bool) (cmd reply : List Char)
    (reply_len : Nat) (ret : Int) :
    (connected = false →
      wifi_send_command connected cmd reply reply_len ret = ⟨-1, false, 0, none⟩)
    ∧ (connected = true → ret = -2 →
      wifi_send_command connected cmd reply reply_len ret = ⟨-2, true, 1, none⟩)
    ∧ (connected = true → ret ≠ -2 → (ret < 0 ∨ reply.take 4 = FAIL) →
      wifi_send_command connected cmd reply reply_len ret = ⟨-1, true, 0, none⟩)
    ∧ (connected = true → ret ≠ -2 → ¬ (ret < 0 ∨ reply.take 4 = FAIL) →
      (wifi_send_command connected cmd reply reply_len ret).ret = 0
      ∧ (wifi_send_command connected cmd reply reply_len ret).cancelBytesWritten = 0
      ∧ (cmd.take 4 = PING →
          (wifi_send_command connected cmd reply reply_len ret).termWriteIdx
            = some reply_len)) := by
  refine ⟨?_, ?_, ?_, ?_⟩
  · intro h
    rw [wifi_send_command, if_pos h]
  · intro h1 h2
    rw [wifi_send_command, if_neg (by simp [h1]), if_pos h2]
  · intro h1 h2 h3
    rw [wifi_send_command, if_neg (by simp [h1]), if_neg h2, if_pos h3]
  · intro h1 h2 h3
    rw [wifi_send_command, if_neg (by simp [h1]), if_neg h2, if_neg h3]
    by_cases hp : cmd.take 4 = PING
    · rw [if_pos hp]
      exact ⟨rfl, rfl, fun _ => rfl⟩
    · rw [if_neg hp]
      exact ⟨rfl, rfl, fun hc => absurd hc hp⟩

/-- C4 witness at the timeout outcome of a concrete STATUS command. -/
theorem send_command_classification_witness :
    wifi_send_command true ['S', 'T', 'A'] ['O', 'K'] 2 (-2)
      = ⟨-2, true, 1, none⟩ :=
  (send_command_classification true ['S', 'T', 'A'] ['O', 'K'] 2 (-2)).2.1 rfl rfl

/-- C10: on a successful send of a command whose first four bytes are PING,
the executor records a terminator write at reply index reply_len, one past
the reported used length, and such a write stays within a buffer exactly
when its capacity strictly exceeds reply_len; on a successful send of any
other command the executor writes no terminator at all, hence nothing at
or beyond index reply_len. -/
theorem send_command_ping_terminator (connected : Bool) (cmd reply : List Char)
    (reply_len : Nat) (ret : Int) (h1 : connected = true) (h2 : ret ≠ -2)
    (h3 : ¬ (ret < 0 ∨ reply.take 4 = FAIL)) :
    (cmd.take 4 = PING →
      (wifi_send_command connected cmd reply reply_len ret).termWriteIdx
          = some reply_len
      ∧ ∀ buf : List Char,
          (writeAt buf reply_len (Char.ofNat 0)).isSome ↔ reply_len < buf.length)
    ∧ (cmd.take 4 ≠ PING →
      (wifi_send_command connected cmd reply reply_len ret).termWriteIdx = none) := by
  constructor
  · intro hp
    constructor
    · rw [wifi_send_command, if_neg (by simp [h1]), if_neg h2, if_neg h3, if_pos hp]
    · intro buf
      rw [writeAt]
      by_cases hb : reply_len < buf.length
      · simp [hb]
      · simp [hb]
  · intro hp
    rw [wifi_send_command, if_neg (by simp [h1]), if_neg h2, if_neg h3, if_neg hp]

/-- C10 witness at a concrete successful PING with a reply of length 4. -/
theorem send_command_ping_terminator_witness :
    (wifi_send_command true ['P', 'I', 'N', 'G'] ['P', 'O', 'N', 'G'] 4 0).termWriteIdx
      = some 4 :=
  ((send_command_ping_terminator true ['P', 'I', 'N', 'G'] ['P', 'O', 'N', 'G'] 4 0
      rfl (by decide) (by decide)).1 rfl).1

/-! ### wifi_connect_on_socket_path claims -/

/-- C5: connect is all-or-none: on every failing input combination the
returned handles are both null and no signaling pair exists, and the
releases recorded in the log undo, in reverse order, exactly the
acquisitions recorded in it; and whenever the signaling pair is created
the call is the fully successful one, whose log shows both opens and the
attach preceding the pair creation and nothing released. -/
theorem connect_all_or_none (running openCtrlOk openMonOk attachOk pairOk : Bool) :
    ((wifi_connect_on_socket_path running openCtrlOk openMonOk attachOk pairOk).ret ≠ 0 →
      (wifi_connect_on_socket_path running openCtrlOk openMonOk attachOk pairOk).ctrl_conn
          = false
      ∧ (wifi_connect_on_socket_path running openCtrlOk openMonOk attachOk pairOk).monitor_conn
          = false
      ∧ (wifi_connect_on_socket_path running openCtrlOk openMonOk attachOk pairOk).pairCreated
          = false
      ∧ closesOf (wifi_connect_on_socket_path running openCtrlOk openMonOk attachOk pairOk).log
          = (opensOf (wifi_connect_on_socket_path running openCtrlOk openMonOk attachOk pairOk).log).reverse)
    ∧ (ConnAction.mkSockPair
          ∈ (wifi_connect_on_socket_path running openCtrlOk openMonOk attachOk pairOk).log →
      (wifi_connect_on_socket_path running openCtrlOk openMonOk attachOk pairOk).log
        = [ConnAction.openCtrlConn, ConnAction.openMonitorConn,
           ConnAction.attachMonitor, ConnAction.mkSockPair]) := by
  cases running <;> cases openCtrlOk <;> cases openMonOk <;>
    cases attachOk <;> cases pairOk <;> decide

/-- C5 witness at the attach-failure input and at the success input. -/
theorem connect_all_or_none_witness :
    ((wifi_connect_on_socket_path true true true false true).ctrl_conn = false
      ∧ (wifi_connect_on_socket_path true true true false true).monitor_conn = false
      ∧ (wifi_connect_on_socket_path true true true false true).pairCreated = false
      ∧ closesOf (wifi_connect_on_socket_path true true true false true).log
          = (opensOf (wifi_connect_on_socket_path true true true false true).log).reverse)
    ∧ (wifi_connect_on_socket_path true true true true true).log
        = [ConnAction.openCtrlConn, ConnAction.openMonitorConn,
           ConnAction.attachMonitor, ConnAction.mkSockPair] :=
  ⟨(connect_all_or_none true true true false true).1 (by decide),
   (connect_all_or_none true true true true true).2 (by decide)⟩

/-! ### wifi_start_supplicant claims -/

theorem visBefore_zero (env : StartEnv) :
    visBefore env 0 ↔ env.findInit = true := by
  unfold visBefore
  simp

theorem visBefore_succ (env : StartEnv) (t : Nat) :
    visBefore env (t + 1) ↔ piVisible env t := by
  unfold visBefore piVisible
  simp [Nat.lt_succ_iff]

theorem or_findAt_iff (env : StartEnv) (t : Nat) (pf : Bool)
    (hpf : pf = true ↔ visBefore env t) :
    ((pf || env.findAt t) = true) ↔ piVisible env t := by
  rw [Bool.or_eq_true, hpf]
  unfold visBefore piVisible
  constructor
  · rintro (h | h)
    · rcases h with h | ⟨s, hs, hP⟩
      · exact Or.inl h
      · exact Or.inr ⟨s, Nat.le_of_lt hs, hP⟩
    · exact Or.inr ⟨t, Nat.le_refl t, h⟩
  · rintro (h | ⟨s, hs, hP⟩)
    · exact Or.inl (Or.inl h)
    · rcases Nat.lt_or_ge s t with hlt | hge
      · exact Or.inl (Or.inr ⟨s, hlt, hP⟩)
      · have hst : s = t := Nat.le_antisymm hs hge
        subst hst
        exact Or.inr hP

/-- When no iteration within the remaining count is a terminal
observation, the polling loop exhausts its count and returns -1. -/
theorem pollLoop_timeout (env : StartEnv) (serial : Nat) :
    ∀ (c t : Nat) (pf : Bool), (pf = true ↔ visBefore env t) →
      (∀ k, k < c → ¬ terminalAt env serial (t + k)) →
      pollLoop env serial c t pf = -1 := by
  intro c
  induction c with
  | zero =>
    intro t pf _ _
    rfl
  | succ c ih =>
    intro t pf hpf hnt
    have hvis := or_findAt_iff env t pf hpf
    have hnext : ((pf || env.findAt t) = true) ↔ visBefore env (t + 1) := by
      rw [visBefore_succ]
      exact hvis
    have hnt0 : ¬ terminalAt env serial t := by
      have h0 := hnt 0 (Nat.succ_pos c)
      rw [Nat.add_zero] at h0
      exact h0
    have hntn : ∀ k, k < c → ¬ terminalAt env serial (t + 1 + k) := by
      intro k hk
      have hs := hnt (k + 1) (Nat.succ_lt_succ hk)
      have he : t + (k + 1) = t + 1 + k := by omega
      rw [he] at hs
      exact hs
    rw [pollLoop]
    by_cases hcond : (pf || env.findAt t) = true ∧ env.serialAt t ≠ serial
    · rw [if_pos hcond]
      have hstat : ¬ (env.statusAt t = statusRunning ∨ env.statusAt t = statusStopped) := by
        intro hs
        exact hnt0 ⟨hvis.mp hcond.1, hcond.2, hs⟩
      push_neg at hstat
      rw [if_neg hstat.1, if_neg hstat.2]
      exact ih (t + 1) _ hnext hntn
    · rw [if_neg hcond]
      exact ih (t + 1) _ hnext hntn

/-- At the first terminal observation within the count, the polling loop
returns 0 when the status read is running and -1 when it is stopped. -/
theorem pollLoop_first_terminal (env : StartEnv) (serial : Nat) :
    ∀ (c t : Nat) (pf : Bool) (j : Nat), (pf = true ↔ visBefore env t) →
      j < c → terminalAt env serial (t + j) →
      (∀ k, k < j → ¬ terminalAt env serial (t + k)) →
      pollLoop env serial c t pf
        = if env.statusAt (t + j) = statusRunning then 0 else -1 := by
  intro c
  induction c with
  | zero =>
    intro t pf j _ hj _ _
    exact absurd hj (Nat.not_lt_zero j)
  | succ c ih =>
    intro t pf j hpf hj hterm hmin
    have hvis := or_findAt_iff env t pf hpf
    have hnext : ((pf || env.findAt t) = true) ↔ visBefore env (t + 1) := by
      rw [visBefore_succ]
      exact hvis
    cases j with
    | zero =>
      have hterm0 : terminalAt env serial t := hterm
      obtain ⟨hv, hs, hst⟩ := hterm0
      show pollLoop env serial (c + 1) t pf
        = if env.statusAt t = statusRunning then 0 else -1
      rw [pollLoop, if_pos ⟨hvis.mpr hv, hs⟩]
      rcases hst with hrun | hstop
      · rw [if_pos hrun, if_pos hrun]
      · have hne : env.statusAt t ≠ statusRunning := by
          rw [hstop]
          decide
        rw [if_neg hne, if_pos hstop, if_neg hne]
    | succ j =>
      have hnt0 : ¬ terminalAt env serial t := by
        have h0 := hmin 0 (Nat.succ_pos j)
        rw [Nat.add_zero] at h0
        exact h0
      have hterm2 : terminalAt env serial (t + 1 + j) := by
        have he : t + (j + 1) = t + 1 + j := by omega
        rw [he] at hterm
        exact hterm
      have hmin2 : ∀ k, k < j → ¬ terminalAt env serial (t + 1 + k) := by
        intro k hk
        have hs := hmin (k + 1) (Nat.succ_lt_succ hk)
        have he : t + (k + 1) = t + 1 + k := by omega
        rw [he] at hs
        exact hs
      have hgoal : t + (j + 1) = t + 1 + j := by omega
      rw [hgoal, pollLoop]
      by_cases hcond : (pf || env.findAt t) = true ∧ env.serialAt t ≠ serial
      · rw [if_pos hcond]
        have hstat : ¬ (env.statusAt t = statusRunning ∨ env.statusAt t = statusStopped) := by
          intro hs
          exact hnt0 ⟨hvis.mp hcond.1, hcond.2, hs⟩
        push_neg at hstat
        rw [if_neg hstat.1, if_neg hstat.2]
        exact ih (t + 1) _ j hnext (Nat.lt_of_succ_lt_succ hj) hterm2 hmin2
      · rw [if_neg hcond]
        exact ih (t + 1) _ j hnext (Nat.lt_of_succ_lt_succ hj) hterm2 hmin2

/-- C3: wifi_start_supplicant returns success immediately, without issuing
the supervisor start, when the initial property read says running;
otherwise, once the primary config file is ensured, it issues the start
and polls for at most startPollCount iterations of 100 milliseconds each:
it returns -1 when no iteration within the ceiling observes an advanced
serial together with a running or stopped status, and at the first
iteration that does, it returns 0 when the status is running and -1 when
it is stopped. -/
theorem start_supplicant_spec (env : StartEnv) :
    (env.found0 = true → env.status0 = statusRunning →
      wifi_start_supplicant env = (0, false))
    ∧ (¬ (env.found0 = true ∧ env.status0 = statusRunning) → env.configOk = true →
      (wifi_start_supplicant env).2 = true
      ∧ ((∀ t, t < startPollCount →
            ¬ terminalAt env (if env.findInit = true then env.serialInit else 0) t) →
          (wifi_start_supplicant env).1 = -1)
      ∧ (∀ j, j < startPollCount →
          terminalAt env (if env.findInit = true then env.serialInit else 0) j →
          (∀ k, k < j →
            ¬ terminalAt env (if env.findInit = true then env.serialInit else 0) k) →
          (wifi_start_supplicant env).1
            = if env.statusAt j = statusRunning then 0 else -1)) := by
  constructor
  · intro h1 h2
    rw [wifi_start_supplicant, if_pos ⟨h1, h2⟩]
  · intro hne hcfg
    have hconf : ¬ env.configOk = false := by
      rw [hcfg]
      decide
    rw [wifi_start_supplicant, if_neg hne, if_neg hconf]
    refine ⟨rfl, ?_, ?_⟩
    · intro hallnt
      apply pollLoop_timeout
      · rw [visBefore_zero]
      · intro k hk
        rw [Nat.zero_add]
        exact hallnt k hk
    · intro j hj hterm hmin
      have hterm0 : terminalAt env
          (if env.findInit = true then env.serialInit else 0) (0 + j) := by
        rw [Nat.zero_add]
        exact hterm
      have hmin0 : ∀ k, k < j → ¬ terminalAt env
          (if env.findInit = true then env.serialInit else 0) (0 + k) := by
        intro k hk
        rw [Nat.zero_add]
        exact hmin k hk
      have hmain := pollLoop_first_terminal env
        (if env.findInit = true then env.serialInit else 0) startPollCount 0
        env.findInit j (by rw [visBefore_zero]) hj hterm0 hmin0
      simp only [Nat.zero_add] at hmain
      exact hmain

/-- C3 witness: a call that must poll, whose first poll is terminal with
status running, returns 0. -/
theorem start_supplicant_spec_witness :
    (wifi_start_supplicant startEnvW).1 = 0 := by
  have h := ((start_supplicant_spec startEnvW).2 (by decide) rfl).2.2 0 (by decide)
    ⟨Or.inl rfl, by decide, Or.inl rfl⟩ (fun k hk => absurd hk (Nat.not_lt_zero k))
  exact h.trans (by decide)

end WifiSystem
